import Mathlib

/-!
Verification of `figshare_dataset.py` (REAL-Colon dataset transfer utility).

The Python program downloads dataset archives from Figshare and re-uploads the
extracted contents to Azure blob storage.  This file gives a shallow embedding
of its components — the string manipulations (`str.find`, slicing, `rstrip`,
`os.path.join`, `os.path.basename`, `os.path.splitext`), the existence check
`blob_exists`, the retrying `download_file`, the `extract_file` step, the
per-file pipeline `download_to_blob` and the orchestration in `main` — and
proves the specification's claims about them.  External effects (HTTP, the
blob SDK, the filesystem) are modelled by explicit oracles and event traces.
-/

namespace FigshareDataset

/-! ## Python string primitives -/

/-- Index of the first occurrence of a character in a list of characters. -/
def findCharIdx (c : Char) : List Char → Option Nat
  | [] => none
  | a :: rest => if a = c then some 0 else (findCharIdx c rest).map (· + 1)

/-- Python `s.find(c)`: index of the first occurrence of `c`, or `-1`. -/
def pyFind (s : String) (c : Char) : Int :=
  match findCharIdx c s.data with
  | some i => (i : Int)
  | none => -1

/-- Python slicing `s[:k]`, including the negative-index convention:
for `k < 0` the effective end index is `len(s) + k`, clamped at `0`. -/
def pySliceTo (s : String) (k : Int) : String :=
  if k < 0 then ⟨s.data.take (s.data.length - (-k).toNat)⟩
  else ⟨s.data.take k.toNat⟩

/-- Python `posixpath.join(a, b)`: `b` if `b` is absolute, `a + b` if `a` is
empty or ends in a separator, and `a + '/' + b` otherwise. -/
def pyJoin (a b : String) : String :=
  if b.data.head? = some '/' then b
  else if a.data = [] ∨ a.data.getLast? = some '/' then a ++ b
  else a ++ "/" ++ b

/-- Core of Python `s.rstrip(chars)` on character lists: drop trailing
characters that belong to the set `strip`. -/
def rstripList (cs strip : List Char) : List Char :=
  (cs.reverse.dropWhile (fun c => decide (c ∈ strip))).reverse

/-- Python `s.rstrip(chars)`: strips every trailing character that is a member
of the character SET `chars` (the argument is treated as a set, not a suffix). -/
def pyRstrip (s : String) (strip : List Char) : String :=
  ⟨rstripList s.data strip⟩

/-- Core of Python `os.path.basename` on character lists: the part of the path
after the last `/` (the whole path when there is no `/`). -/
def basenameList (cs : List Char) : List Char :=
  (cs.reverse.takeWhile (fun c => decide (c ≠ '/'))).reverse

/-- Python `os.path.basename`. -/
def basename (s : String) : String :=
  ⟨basenameList s.data⟩

/-- Core of Python `os.path.splitext(p)[0]` on character lists (posixpath):
split off the extension at the last dot of the final path component, except
when that component's part before the dot is empty or consists only of dots. -/
def splitextFstList (p : List Char) : List Char :=
  let rev := p.reverse
  let revName := rev.takeWhile (fun c => decide (c ≠ '/'))
  let revExt := revName.takeWhile (fun c => decide (c ≠ '.'))
  if revExt.length = revName.length then p
  else
    let revRoot := revName.drop (revExt.length + 1)
    if revRoot.all (fun c => c = '.') then p
    else (rev.drop (revExt.length + 1)).reverse

/-- Python `os.path.splitext(p)[0]`. -/
def splitextFst (s : String) : String :=
  ⟨splitextFstList s.data⟩

/-- Python `s.endswith(suffix)`. -/
def pyEndsWith (s suffix : String) : Bool :=
  suffix.data.isSuffixOf s.data

/-- Python `s.startswith(p)` / the blob SDK's name filtering. -/
def startsWithStr (pfx s : String) : Bool :=
  pfx.data.isPrefixOf s.data

/-! ## `blob_exists` (source lines 60–68)

The remote container is modelled as the list of all blob names it holds; an
effectful listing call is modelled as a function from the requested name
filter to `Except` of the returned names, and `blob_existsTrace` additionally
records the list of filters it was called with. -/

/-- `container_client.list_blob_names(name_starts_with=p)` over a modelled
container: the blobs whose names start with `p`. -/
def list_blob_names (containerBlobs : List String) (name_starts_with : String) : List String :=
  containerBlobs.filter (fun b => startsWithStr name_starts_with b)

/-- The `for blob in blobs_list: blob_exists = True; break` loop of
`blob_exists`: `true` exactly when the listing is non-empty. -/
def loopAnyBlob : List String → Bool
  | [] => false
  | _ :: _ => true

/-- `blob_exists(local_filename, container_client, base_blob_name)` with the
container modelled as its list of blob names. -/
def blob_exists (local_filename : String) (containerBlobs : List String)
    (base_blob_name : String) : Bool :=
  let name_wo_ext := pySliceTo local_filename (pyFind local_filename '.')
  let blob_path := pyJoin base_blob_name name_wo_ext
  loopAnyBlob (list_blob_names containerBlobs blob_path)

/-- `blob_exists` with the remote listing as an explicit fallible call.  The
second component records the `name_starts_with` arguments passed to the
listing call; a listing failure is not caught anywhere in the function. -/
def blob_existsTrace {E : Type} (call : String → Except E (List String))
    (local_filename base_blob_name : String) : Except E Bool × List String :=
  let name_wo_ext := pySliceTo local_filename (pyFind local_filename '.')
  let blob_path := pyJoin base_blob_name name_wo_ext
  ((call blob_path).map loopAnyBlob, [blob_path])

/-! ## `download_file` (source lines 71–113)

Each attempt of the `while attempt < max_attempts` loop either completes the
HTTP request and streaming (returning `local_filename`) or raises; which one
happens is modelled by the oracle `succeeds : Nat → Bool`, indexed by the
attempt counter.  Every failed attempt sleeps `retry_delay` seconds and
increments the counter; exhausting the loop returns `None`.  The trace records
the attempted indices and the sleep durations. -/

/-- `max_attempts = 1000` of `download_file`. -/
def max_attempts : Nat := 1000

/-- `retry_delay = 180` seconds of `download_file`. -/
def retry_delay : Nat := 180

/-- Result and trace of a `download_file` run: the returned value
(`some path` or `None`), the attempt indices tried, and the sleep durations
performed between attempts. -/
structure DownloadTrace where
  result : Option String
  tried : List Nat
  sleeps : List Nat
  deriving DecidableEq, Repr

/-- The retry loop of `download_file`, recursing on the number of remaining
attempts (`max_attempts - attempt`).  A successful attempt returns
`local_filename` at once; a failed one sleeps `retry_delay` and retries. -/
def download_go (succeeds : Nat → Bool) (local_filename : String) :
    Nat → Nat → DownloadTrace
  | _, 0 => ⟨none, [], []⟩
  | attempt, r + 1 =>
    if succeeds attempt then ⟨some local_filename, [attempt], []⟩
    else
      let t := download_go succeeds local_filename (attempt + 1) r
      ⟨t.result, attempt :: t.tried, retry_delay :: t.sleeps⟩

/-- `download_file((url, local_filename))` under the attempt oracle
`succeeds`. -/
def download_file (succeeds : Nat → Bool) (url local_filename : String) :
    DownloadTrace :=
  download_go succeeds local_filename 0 max_attempts

/-! ## `extract_file` (source lines 116–133)

The filesystem is consulted only through `os.path.exists`, modelled by the
oracle `path_exists`; the function's effects (extraction, archive deletion)
are returned as an ordered action list. -/

/-- The character set of Python `rstrip('.tar.gz')`. -/
def tarGzStripChars : List Char := ['.', 't', 'a', 'r', 'g', 'z']

/-- A filesystem effect of `extract_file`. -/
inductive FSAction where
  /-- `tarfile.open(archive).extractall(dest)` -/
  | extractAll (archive dest : String)
  /-- `os.remove(path)` -/
  | remove (path : String)
  deriving DecidableEq, Repr

/-- `extract_file((file_path, download_dir))` under the `os.path.exists`
oracle `path_exists`, returning its ordered filesystem effects. -/
def extract_file (path_exists : String → Bool) (file_path download_dir : String) :
    List FSAction :=
  if pyEndsWith file_path ".tar.gz" then
    let file_comp_path := pyJoin download_dir file_path
    let file_name := pyRstrip file_path tarGzStripChars
    let extracted_folder_name := splitextFst (basename file_name)
    let extracted_folder_path := pyJoin download_dir extracted_folder_name
    (if path_exists extracted_folder_path then []
     else [FSAction.extractAll file_comp_path download_dir])
      ++ [FSAction.remove file_comp_path]
  else []

/-! ## `download_to_blob` (source lines 148–201)

The pipeline's effects are an event trace; which steps raise is an oracle
(`PipelineEnv`).  Steps before the `try:` (credential construction at line
151, container listing at lines 154–158, container creation at line 160) sit
outside the `try`, so a raise there is an `Except.error` (propagates to the
caller); a raise inside the `try` is absorbed by the `except` at line 198
into the sentinel `-1`.  The `with tempfile.TemporaryDirectory()` block emits
`mkTmpdir` on entry and `rmTmpdir` when it unwinds, on both the normal and
the exceptional path.  The extracted archive contents are modelled by the
walk-ordered list `relFiles` of the relative paths of the regular files that
`os.walk(tmpdir)` finds after extraction. -/

/-- An observable event of one `download_to_blob` run. -/
inductive Ev where
  /-- the `tempfile.TemporaryDirectory()` scratch directory is created -/
  | mkTmpdir
  /-- `download_file((file_url, local_file_path))` is invoked -/
  | download (file_name : String)
  /-- `tarfile.open(local_file_path)` / `extractall(tmpdir)` is attempted -/
  | extractArchive
  /-- `os.remove(local_file_path)` deletes the downloaded archive -/
  | removeArchive
  /-- `container_client.upload_blob(name=name, ...)` succeeds -/
  | uploadBlob (name : String)
  /-- the scratch directory is removed (context-manager exit) -/
  | rmTmpdir
  /-- `logger.exception(e)` in the `except` handler -/
  | logException
  deriving DecidableEq, Repr

/-- Which steps of one `download_to_blob` invocation raise, and what the
extracted archive contains. -/
structure PipelineEnv where
  /-- `DefaultAzureCredential()` raises (line 151, before the `try`) -/
  credentialRaises : Bool
  /-- iterating `blob_service_client.list_containers(...)` raises (line 154) -/
  listContainersRaises : Bool
  /-- the names of the containers in the storage account -/
  containers : List String
  /-- `blob_service_client.create_container(...)` raises (line 160) -/
  createContainerRaises : Bool
  /-- `tarfile.open` / `extractall` raises inside the `try` (lines 174–175) -/
  extractRaises : Bool
  /-- relative paths of the regular files of the extracted tree, in
  `os.walk` order -/
  relFiles : List String
  /-- index (into `relFiles`) of the first `upload_blob` call that raises -/
  uploadRaisesAt : Option Nat

/-- The upload loop of `download_to_blob` (lines 182–189): walks the
extracted files in order, uploading each to `os.path.join(base_blob_name,
rel_path)` and incrementing `n_blobs_uploaded`, until done or until the
upload at index `failAt` raises.  Returns the count, the upload events, and
whether it raised. -/
def uploadLoop (base_blob_name : String) :
    List String → Option Nat → Nat × List Ev × Bool
  | [], _ => (0, [], false)
  | rel :: rest, failAt =>
    match failAt with
    | some 0 => (0, [], true)
    | some (k + 1) =>
      let r := uploadLoop base_blob_name rest (some k)
      (r.1 + 1, Ev.uploadBlob (pyJoin base_blob_name rel) :: r.2.1, r.2.2)
    | none =>
      let r := uploadLoop base_blob_name rest none
      (r.1 + 1, Ev.uploadBlob (pyJoin base_blob_name rel) :: r.2.1, r.2.2)

/-- The container-existence loop of `download_to_blob` (lines 154–158): list
the containers whose names start with `container_name` and scan for one whose
name equals it. -/
def container_found (env : PipelineEnv) (container_name : String) : Bool :=
  (env.containers.filter (fun c => startsWithStr container_name c)).any
    (fun c => c = container_name)

/-- `download_to_blob(file_url, file_name, storage_acct_url, container_name,
base_blob_name)` under the oracle `env`: `Except.error` when an uncaught
exception propagates to the caller, `Except.ok (result, trace)` otherwise. -/
def download_to_blob (env : PipelineEnv)
    (file_url file_name storage_acct_url container_name base_blob_name : String) :
    Except String (Int × List Ev) :=
  if env.credentialRaises then Except.error "DefaultAzureCredential raised"
  else if env.listContainersRaises then Except.error "list_containers raised"
  else if container_found env container_name = false ∧ env.createContainerRaises = true then
    Except.error "create_container raised"
  else if env.extractRaises then
    Except.ok (-1, [Ev.mkTmpdir, Ev.download file_name, Ev.extractArchive,
      Ev.rmTmpdir, Ev.logException])
  else if (uploadLoop base_blob_name env.relFiles env.uploadRaisesAt).2.2 then
    Except.ok (-1, [Ev.mkTmpdir, Ev.download file_name, Ev.extractArchive,
      Ev.removeArchive] ++ (uploadLoop base_blob_name env.relFiles env.uploadRaisesAt).2.1
      ++ [Ev.rmTmpdir, Ev.logException])
  else
    Except.ok (((uploadLoop base_blob_name env.relFiles env.uploadRaisesAt).1 : Int),
      [Ev.mkTmpdir, Ev.download file_name, Ev.extractArchive, Ev.removeArchive]
        ++ (uploadLoop base_blob_name env.relFiles env.uploadRaisesAt).2.1
        ++ [Ev.rmTmpdir])

/-! ## `main` (source lines 203–254)

The catalog (`article_data['files']`) is modelled as a list of
`(download_url, name)` pairs, the container as its blob-name list, and each
worker's `download_to_blob` outcome by the oracle `pipelineResult`.  The
variable `results` is assigned only inside `if num_processes != 0:`; reading
it in the summary loop when no pool was created raises `UnboundLocalError`,
modelled as `Except.error`. -/

/-- `CONTAINER_NAME` constant of the source. -/
def CONTAINER_NAME : String := "polyp-datasets"

/-- `BASE_BLOB_NAME` constant of the source. -/
def BASE_BLOB_NAME : String := "real-colon-dataset"

/-- Inputs and worker behaviour of one `main` run. -/
structure MainEnv where
  /-- `(download_url, name)` of each catalog entry, in catalog order -/
  files : List (String × String)
  /-- the blob names present in the container -/
  containerBlobs : List String
  /-- result of `download_to_blob` for a given `(url, name)` task -/
  pipelineResult : String × String → Int

/-- The task-queueing loop of `main` (lines 224–235): entries whose blobs
already exist are skipped (`continue`), the rest are appended to
`download_tasks`. -/
def download_tasks (env : MainEnv) : List (String × String) :=
  env.files.filter
    (fun fi => blob_exists fi.2 env.containerBlobs BASE_BLOB_NAME = false)

/-- `num_processes = min(4, len(download_tasks))` (lines 238–241). -/
def num_processes (env : MainEnv) : Nat :=
  min 4 (download_tasks env).length

/-- The pool phase (lines 244–246): `results` is bound to the collected
pipeline results only when `num_processes != 0`; otherwise it stays
unassigned (`none`). -/
def pool_results (env : MainEnv) : Option (List Int) :=
  if num_processes env ≠ 0 then some ((download_tasks env).map env.pipelineResult)
  else none

/-- One line of the final per-file summary (lines 249–253). -/
inductive SummaryLine where
  /-- `logger.error(f"Something went wrong for file {file}. ...")` -/
  | failure (file : String)
  /-- `logger.info(f"Uploaded {n_blobs} for file {file}")` -/
  | uploaded (n_blobs : Int) (file : String)
  deriving DecidableEq, Repr

/-- The summary loop of `main` (lines 248–253): reads `results`, which is an
`UnboundLocalError` when the pool branch did not run. -/
def main_summary (env : MainEnv) : Except String (List SummaryLine) :=
  match pool_results env with
  | none => Except.error "UnboundLocalError: results"
  | some results =>
    let fnames := (download_tasks env).map (fun args => args.2)
    Except.ok ((fnames.zip results).map
      (fun fr => if fr.2 = -1 then SummaryLine.failure fr.1
                 else SummaryLine.uploaded fr.2 fr.1))

/-! ## Auxiliary list lemmas -/

theorem dropWhile_length_le {α : Type} (p : α → Bool) (l : List α) :
    (l.dropWhile p).length ≤ l.length := by
  induction l with
  | nil => exact Nat.le_refl _
  | cons a l ih =>
    rw [List.dropWhile_cons]
    split
    · exact Nat.le_trans ih (Nat.le_succ _)
    · exact Nat.le_refl _

theorem takeWhile_length_le {α : Type} (p : α → Bool) (l : List α) :
    (l.takeWhile p).length ≤ l.length := by
  induction l with
  | nil => exact Nat.le_refl _
  | cons a l ih =>
    rw [List.takeWhile_cons]
    split
    · simpa using Nat.succ_le_succ ih
    · exact Nat.zero_le _

theorem dropWhile_append_of_all {α : Type} (p : α → Bool) (l₁ l₂ : List α)
    (h : ∀ a ∈ l₁, p a = true) :
    (l₁ ++ l₂).dropWhile p = l₂.dropWhile p := by
  induction l₁ with
  | nil => rfl
  | cons a l ih =>
    rw [List.cons_append, List.dropWhile_cons, if_pos (h a (List.mem_cons_self a l))]
    exact ih (fun x hx => h x (List.mem_cons_of_mem a hx))

/-! ## Lemmas about the Python string primitives -/

theorem findCharIdx_eq_none {c : Char} {l : List Char} (h : c ∉ l) :
    findCharIdx c l = none := by
  induction l with
  | nil => rfl
  | cons a l ih =>
    have ha : ¬a = c := fun hac => h (hac ▸ List.mem_cons_self a l)
    have hl : c ∉ l := fun hcl => h (List.mem_cons_of_mem a hcl)
    simp [findCharIdx, ha, ih hl]

theorem str_data_append (a b : String) : (a ++ b).data = a.data ++ b.data := by
  cases a; cases b; rfl

theorem rstripList_append (cs ext strip : List Char) (h : ∀ c ∈ ext, c ∈ strip) :
    rstripList (cs ++ ext) strip = rstripList cs strip := by
  unfold rstripList
  rw [List.reverse_append, dropWhile_append_of_all]
  intro a ha
  exact decide_eq_true (h a (List.mem_reverse.mp ha))

theorem rstripList_length_lt (cs strip : List Char) (c : Char) (rest : List Char)
    (hrev : cs.reverse = c :: rest) (hc : c ∈ strip) :
    (rstripList cs strip).length < cs.length := by
  unfold rstripList
  rw [hrev, List.dropWhile_cons, if_pos (decide_eq_true hc), List.length_reverse]
  have h1 : (rest.dropWhile (fun c => decide (c ∈ strip))).length ≤ rest.length :=
    dropWhile_length_le _ _
  have h2 : cs.length = rest.length + 1 := by
    rw [← List.length_reverse cs, hrev, List.length_cons]
  omega

theorem basenameList_length_le (cs : List Char) :
    (basenameList cs).length ≤ cs.length := by
  unfold basenameList
  rw [List.length_reverse, ← List.length_reverse cs]
  exact takeWhile_length_le _ _

theorem splitextFstList_length_le (p : List Char) :
    (splitextFstList p).length ≤ p.length := by
  unfold splitextFstList
  dsimp only
  split
  · exact Nat.le_refl _
  · split
    · exact Nat.le_refl _
    · rw [List.length_reverse, List.length_drop, List.length_reverse]
      omega

theorem pyJoin_eq_concat (a b : String) (ha : a.data ≠ [])
    (ha2 : a.data.getLast? ≠ some '/') (hb : b.data.head? ≠ some '/') :
    pyJoin a b = a ++ "/" ++ b := by
  unfold pyJoin
  rw [if_neg hb, if_neg (by simp [ha, ha2])]

/-! ## Claims about `blob_exists` -/

/-- C9: for a file name with no `.`, `str.find` returns `-1`, so the Python
slice `local_filename[:local_filename.find('.')]` is the name with its final
character removed, and `blob_exists` therefore checks the remote listing
against the base name joined with the name minus its last character. -/
theorem blob_exists_no_dot_slice (s : String) (containerBlobs : List String)
    (base_blob_name : String) (h : '.' ∉ s.data) :
    pySliceTo s (pyFind s '.') = ⟨s.data.dropLast⟩ ∧
    blob_exists s containerBlobs base_blob_name =
      loopAnyBlob (list_blob_names containerBlobs
        (pyJoin base_blob_name ⟨s.data.dropLast⟩)) := by
  have hf : pyFind s '.' = -1 := by
    unfold pyFind
    rw [findCharIdx_eq_none h]
  have h1 : pySliceTo s (pyFind s '.') = ⟨s.data.dropLast⟩ := by
    rw [hf]
    unfold pySliceTo
    rw [if_pos (by norm_num)]
    have : ((-(-1 : Int)).toNat) = 1 := by norm_num
    rw [this, ← List.dropLast_eq_take]
  refine ⟨h1, ?_⟩
  unfold blob_exists
  rw [h1]

/-- Witness for C9 at the dotless name `"abc"`. -/
theorem blob_exists_no_dot_slice_witness :
    '.' ∉ "abc".data ∧
    pySliceTo "abc" (pyFind "abc" '.') = ⟨"abc".data.dropLast⟩ ∧
    pySliceTo "abc" (pyFind "abc" '.') = "ab" :=
  ⟨by decide, (blob_exists_no_dot_slice "abc" [] "real-colon-dataset" (by decide)).1,
    by decide⟩

/-- C7: `blob_exists` issues exactly one list-objects call, with the filter
`os.path.join(base_blob_name, name_without_extension)`; a failure of that
call propagates uncaught; the returned boolean is `true` iff the container
holds at least one blob whose name starts with that filter; and under
ordinary names the filter is literally `{base_blob_name}/{name_wo_ext}`. -/
theorem blob_exists_spec {E : Type} (call : String → Except E (List String))
    (containerBlobs : List String) (local_filename base_blob_name : String) (e : E) :
    (blob_existsTrace call local_filename base_blob_name).2 =
      [pyJoin base_blob_name (pySliceTo local_filename (pyFind local_filename '.'))] ∧
    (call (pyJoin base_blob_name (pySliceTo local_filename (pyFind local_filename '.'))) =
        Except.error e →
      (blob_existsTrace call local_filename base_blob_name).1 = Except.error e) ∧
    (blob_exists local_filename containerBlobs base_blob_name = true ↔
      ∃ b ∈ containerBlobs,
        startsWithStr
          (pyJoin base_blob_name (pySliceTo local_filename (pyFind local_filename '.'))) b
          = true) ∧
    (base_blob_name.data ≠ [] → base_blob_name.data.getLast? ≠ some '/' →
      (pySliceTo local_filename (pyFind local_filename '.')).data.head? ≠ some '/' →
      pyJoin base_blob_name (pySliceTo local_filename (pyFind local_filename '.')) =
        base_blob_name ++ "/" ++ pySliceTo local_filename (pyFind local_filename '.')) := by
  refine ⟨rfl, ?_, ?_, ?_⟩
  · intro h
    unfold blob_existsTrace
    dsimp only
    rw [h]
    rfl
  · unfold blob_exists list_blob_names
    have hloop : ∀ l : List String, loopAnyBlob l = true ↔ l ≠ [] := by
      intro l
      cases l <;> simp [loopAnyBlob]
    rw [hloop]
    rw [Ne, List.filter_eq_nil_iff]
    push_neg
    simp
  · intro h1 h2 h3
    exact pyJoin_eq_concat _ _ h1 h2 h3

/-- Witness for C7: a failing listing propagates, and the check is positive
for a container holding a blob under the computed filter. -/
theorem blob_exists_spec_witness :
    (blob_existsTrace (fun _ => (Except.error "listing failed" : Except String (List String)))
        "a.tar.gz" "real-colon-dataset").1 = Except.error "listing failed" ∧
    blob_exists "a.tar.gz" ["real-colon-dataset/a/frame_0001.jpg"] "real-colon-dataset" = true := by
  have h := blob_exists_spec
    (fun _ => (Except.error "listing failed" : Except String (List String)))
    ["real-colon-dataset/a/frame_0001.jpg"] "a.tar.gz" "real-colon-dataset" "listing failed"
  exact ⟨h.2.1 rfl, h.2.2.1.mpr ⟨"real-colon-dataset/a/frame_0001.jpg", by decide, by decide⟩⟩

/-! ## Claims about `extract_file` -/

/-- C6: for a `.tar.gz` archive, when the computed target extraction directory
already exists the Extractor performs no extraction but still deletes the
archive; when it does not exist, it extracts into the download directory and
then deletes the archive. -/
theorem extract_file_skip_delete (path_exists : String → Bool)
    (file_path download_dir : String) (h : pyEndsWith file_path ".tar.gz" = true) :
    (path_exists (pyJoin download_dir
        (splitextFst (basename (pyRstrip file_path tarGzStripChars)))) = true →
      extract_file path_exists file_path download_dir =
        [FSAction.remove (pyJoin download_dir file_path)]) ∧
    (path_exists (pyJoin download_dir
        (splitextFst (basename (pyRstrip file_path tarGzStripChars)))) = false →
      extract_file path_exists file_path download_dir =
        [FSAction.extractAll (pyJoin download_dir file_path) download_dir,
         FSAction.remove (pyJoin download_dir file_path)]) := by
  constructor <;> intro hp <;> simp [extract_file, h, hp]

/-- Witness for C6 at `"data.tar.gz"`, with the directory both present and
absent. -/
theorem extract_file_skip_delete_witness :
    extract_file (fun _ => true) "data.tar.gz" "./dataset" =
      [FSAction.remove (pyJoin "./dataset" "data.tar.gz")] ∧
    extract_file (fun _ => false) "data.tar.gz" "./dataset" =
      [FSAction.extractAll (pyJoin "./dataset" "data.tar.gz") "./dataset",
       FSAction.remove (pyJoin "./dataset" "data.tar.gz")] :=
  ⟨(extract_file_skip_delete (fun _ => true) "data.tar.gz" "./dataset" (by decide)).1 rfl,
   (extract_file_skip_delete (fun _ => false) "data.tar.gz" "./dataset" (by decide)).2 rfl⟩

/-- C10: `extract_file` derives the "already extracted" directory with
`str.rstrip('.tar.gz')`, which strips trailing characters from the SET
`{'.','t','a','r','g','z'}` — stripping the whole `".tar.gz"` suffix and then
continuing into the stem — so whenever the archive's stem ends in one of
those characters, the directory consulted for the skip decision differs from
the stem. -/
theorem extract_file_rstrip_folder (stem : String) (c : Char) (rest : List Char)
    (hrev : stem.data.reverse = c :: rest) (hc : c ∈ tarGzStripChars) :
    pyRstrip (stem ++ ".tar.gz") tarGzStripChars = pyRstrip stem tarGzStripChars ∧
    splitextFst (basename (pyRstrip (stem ++ ".tar.gz") tarGzStripChars)) ≠ stem := by
  have hstrip : pyRstrip (stem ++ ".tar.gz") tarGzStripChars =
      pyRstrip stem tarGzStripChars := by
    unfold pyRstrip
    rw [str_data_append]
    rw [rstripList_append stem.data ".tar.gz".data tarGzStripChars (by decide)]
  refine ⟨hstrip, ?_⟩
  intro heq
  have hlen : (splitextFst (basename (pyRstrip (stem ++ ".tar.gz") tarGzStripChars))).data.length
      < stem.data.length := by
    rw [hstrip]
    have h1 : (rstripList stem.data tarGzStripChars).length < stem.data.length :=
      rstripList_length_lt stem.data tarGzStripChars c rest hrev hc
    have h2 : (basenameList (rstripList stem.data tarGzStripChars)).length ≤
        (rstripList stem.data tarGzStripChars).length := basenameList_length_le _
    have h3 : (splitextFstList (basenameList (rstripList stem.data tarGzStripChars))).length ≤
        (basenameList (rstripList stem.data tarGzStripChars)).length :=
      splitextFstList_length_le _
    have h4 : (splitextFst (basename (pyRstrip stem tarGzStripChars))).data.length
        = (splitextFstList (basenameList (rstripList stem.data tarGzStripChars))).length := rfl
    rw [h4]
    omega
  rw [heq] at hlen
  omega

/-- Witness for C10 at stem `"data"` (which ends in `'a'`, a member of the
strip set): the consulted folder name is `"d"`, not `"data"`. -/
theorem extract_file_rstrip_folder_witness :
    "data".data.reverse = 'a' :: ['t', 'a', 'd'] ∧
    'a' ∈ tarGzStripChars ∧
    splitextFst (basename (pyRstrip ("data" ++ ".tar.gz") tarGzStripChars)) ≠ "data" ∧
    splitextFst (basename (pyRstrip ("data" ++ ".tar.gz") tarGzStripChars)) = "d" :=
  ⟨by decide, by decide,
   (extract_file_rstrip_folder "data" 'a' ['t', 'a', 'd'] (by decide) (by decide)).2,
   by decide⟩

/-! ## Claims about `download_file` -/

theorem download_go_all_fail (succeeds : Nat → Bool) (fn : String) :
    ∀ (r attempt : Nat), (∀ n, n < attempt + r → succeeds n = false) →
      download_go succeeds fn attempt r =
        ⟨none, List.range' attempt r, List.replicate r retry_delay⟩ := by
  intro r
  induction r with
  | zero => intro attempt _; rfl
  | succ r ih =>
    intro attempt h
    have hfail : succeeds attempt = false := h attempt (by omega)
    unfold download_go
    rw [hfail]
    simp only [Bool.false_eq_true, if_false]
    rw [ih (attempt + 1) (fun n hn => h n (by omega))]
    rfl

theorem download_go_success (succeeds : Nat → Bool) (fn : String) :
    ∀ (r attempt : Nat), (∃ j, j < r ∧ succeeds (attempt + j) = true) →
      (download_go succeeds fn attempt r).result = some fn := by
  intro r
  induction r with
  | zero =>
    intro attempt h
    obtain ⟨j, hj, _⟩ := h
    omega
  | succ r ih =>
    intro attempt h
    obtain ⟨j, hj, hs⟩ := h
    unfold download_go
    by_cases ha : succeeds attempt = true
    · rw [ha]
      rfl
    · rw [Bool.eq_false_iff.mpr ha]
      simp only [Bool.false_eq_true, if_false]
      apply ih (attempt + 1)
      have hj0 : j ≠ 0 := by
        intro h0
        apply ha
        rw [← hs, h0, Nat.add_zero]
      refine ⟨j - 1, by omega, ?_⟩
      have harith : attempt + 1 + (j - 1) = attempt + j := by omega
      rw [harith]
      exact hs

/-- C3: `download_file` retries on any failed attempt with the fixed
180-second delay; if every one of the 1000 permitted attempts fails it
performs exactly 1000 attempts (sleeping 180 s after each) and returns the
failure sentinel `None`; if some attempt succeeds it returns the destination
path; and the sentinel is distinguishable from every valid path. -/
theorem download_file_retry_spec (succeeds : Nat → Bool) (url local_filename : String) :
    ((∀ n, n < max_attempts → succeeds n = false) →
      download_file succeeds url local_filename =
        ⟨none, List.range max_attempts, List.replicate max_attempts retry_delay⟩) ∧
    ((∃ k, k < max_attempts ∧ succeeds k = true) →
      (download_file succeeds url local_filename).result = some local_filename) ∧
    (∀ p : String, (none : Option String) ≠ some p) := by
  refine ⟨?_, ?_, fun p h => Option.noConfusion h⟩
  · intro h
    unfold download_file
    rw [List.range_eq_range']
    exact download_go_all_fail succeeds local_filename max_attempts 0 (fun n hn => h n (by omega))
  · intro h
    obtain ⟨k, hk, hs⟩ := h
    exact download_go_success succeeds local_filename max_attempts 0
      ⟨k, hk, by rw [Nat.zero_add]; exact hs⟩

/-- Witness for C3: an always-failing oracle yields the sentinel with 1000
attempts and 1000 sleeps of 180 s; an oracle succeeding at attempt 3 yields
the destination path. -/
theorem download_file_retry_spec_witness :
    download_file (fun _ => false) "http://u" "/tmp/f" =
      ⟨none, List.range max_attempts, List.replicate max_attempts retry_delay⟩ ∧
    (download_file (fun n => n == 3) "http://u" "/tmp/f").result = some "/tmp/f" :=
  ⟨(download_file_retry_spec (fun _ => false) "http://u" "/tmp/f").1 (fun _ _ => rfl),
   (download_file_retry_spec (fun n => n == 3) "http://u" "/tmp/f").2.1
     ⟨3, by norm_num [max_attempts], by decide⟩⟩

/-! ## Claims about `download_to_blob` -/

theorem uploadLoop_none (base_blob_name : String) (files : List String) :
    uploadLoop base_blob_name files none =
      (files.length,
       files.map (fun rel => Ev.uploadBlob (pyJoin base_blob_name rel)),
       false) := by
  induction files with
  | nil => rfl
  | cons rel rest ih => simp [uploadLoop, ih]

theorem uploadLoop_raises (base_blob_name : String) :
    ∀ (files : List String) (k : Nat), k < files.length →
      (uploadLoop base_blob_name files (some k)).2.2 = true := by
  intro files
  induction files with
  | nil => intro k hk; simp at hk
  | cons rel rest ih =>
    intro k hk
    cases k with
    | zero => rfl
    | succ k =>
      simp only [uploadLoop]
      exact ih k (by simpa using hk)

/-- C5: with no step raising, the upload phase of the pipeline uploads
exactly one blob per regular file of the extracted tree, named
`{base_blob_name}/{relative path}`, and the pipeline returns exactly that
count. -/
theorem upload_phase_count_and_names (env : PipelineEnv)
    (file_url file_name storage_acct_url container_name base_blob_name : String)
    (hcred : env.credentialRaises = false)
    (hlist : env.listContainersRaises = false)
    (hcont : container_found env container_name = true ∨ env.createContainerRaises = false)
    (hext : env.extractRaises = false)
    (hup : env.uploadRaisesAt = none)
    (hbase : base_blob_name.data ≠ [])
    (hbase2 : base_blob_name.data.getLast? ≠ some '/')
    (hrel : ∀ rel ∈ env.relFiles, rel.data.head? ≠ some '/') :
    download_to_blob env file_url file_name storage_acct_url container_name base_blob_name =
      Except.ok ((env.relFiles.length : Int),
        [Ev.mkTmpdir, Ev.download file_name, Ev.extractArchive, Ev.removeArchive]
          ++ env.relFiles.map (fun rel => Ev.uploadBlob (base_blob_name ++ "/" ++ rel))
          ++ [Ev.rmTmpdir]) := by
  have hnames : env.relFiles.map (fun rel => Ev.uploadBlob (pyJoin base_blob_name rel)) =
      env.relFiles.map (fun rel => Ev.uploadBlob (base_blob_name ++ "/" ++ rel)) :=
    List.map_congr_left
      (fun rel hmem => by rw [pyJoin_eq_concat _ _ hbase hbase2 (hrel rel hmem)])
  unfold download_to_blob
  rw [hcred, hlist]
  simp only [Bool.false_eq_true, if_false]
  rw [if_neg (by rcases hcont with hc | hc <;> simp [hc]), hext]
  simp only [Bool.false_eq_true, if_false]
  rw [hup, uploadLoop_none]
  simp only [Bool.false_eq_true, if_false]
  rw [hnames]

/-- Witness for C5: a clean run over an extracted tree with two regular
files uploads two blobs with the expected names and returns 2. -/
theorem upload_phase_count_and_names_witness :
    download_to_blob ⟨false, false, ["polyp-datasets"], false, false,
        ["001/frame_a.jpg", "001/frame_b.jpg"], none⟩
      "http://u" "001.tar.gz" "https://acct" "polyp-datasets" "real-colon-dataset" =
      Except.ok ((2 : Int),
        [Ev.mkTmpdir, Ev.download "001.tar.gz", Ev.extractArchive, Ev.removeArchive]
          ++ ["001/frame_a.jpg", "001/frame_b.jpg"].map
              (fun rel => Ev.uploadBlob ("real-colon-dataset" ++ "/" ++ rel))
          ++ [Ev.rmTmpdir]) :=
  upload_phase_count_and_names
    ⟨false, false, ["polyp-datasets"], false, false,
      ["001/frame_a.jpg", "001/frame_b.jpg"], none⟩
    "http://u" "001.tar.gz" "https://acct" "polyp-datasets" "real-colon-dataset"
    rfl rfl (Or.inr rfl) rfl rfl (by decide) (by decide) (by decide)

/-- Counterexample to C1 as stated: a failure of the credential-construction
step (line 151, which precedes the `try:` at line 164) is NOT converted to
the sentinel `-1`; it propagates to the caller as an uncaught exception. -/
theorem download_to_blob_catchall_cex :
    download_to_blob ⟨true, false, [], false, false, [], none⟩
      "http://u" "001.tar.gz" "https://acct" "polyp-datasets" "real-colon-dataset" =
      Except.error "DefaultAzureCredential raised" := rfl

/-- C1 (amended): any exception raised inside the pipeline's `try` block
(download/extract/upload phases and their logging) is caught at the
function's top level, logged, and converted to the failure sentinel `-1`;
but the credential construction and container lookup/creation steps precede
the `try`, and an exception there propagates to the caller. -/
theorem download_to_blob_boundary (env : PipelineEnv)
    (file_url file_name storage_acct_url container_name base_blob_name : String) :
    ((env.credentialRaises = true ∨ env.listContainersRaises = true ∨
        (container_found env container_name = false ∧ env.createContainerRaises = true)) →
      ∃ e, download_to_blob env file_url file_name storage_acct_url
          container_name base_blob_name = Except.error e) ∧
    (env.credentialRaises = false → env.listContainersRaises = false →
      (container_found env container_name = true ∨ env.createContainerRaises = false) →
      (env.extractRaises = true ∨
        (∃ k, env.uploadRaisesAt = some k ∧ k < env.relFiles.length)) →
      ∃ t, download_to_blob env file_url file_name storage_acct_url
          container_name base_blob_name = Except.ok (-1, t) ∧ Ev.logException ∈ t) := by
  constructor
  · intro h
    by_cases hc : env.credentialRaises = true
    · exact ⟨"DefaultAzureCredential raised", by unfold download_to_blob; rw [if_pos hc]⟩
    · rw [Bool.not_eq_true] at hc
      by_cases hl : env.listContainersRaises = true
      · exact ⟨"list_containers raised", by unfold download_to_blob; rw [hc, hl]; rfl⟩
      · rw [Bool.not_eq_true] at hl
        rcases h with h | h | h
        · exact absurd h (by rw [hc]; exact Bool.false_ne_true)
        · exact absurd h (by rw [hl]; exact Bool.false_ne_true)
        · refine ⟨"create_container raised", ?_⟩
          unfold download_to_blob
          rw [hc, hl]
          simp only [Bool.false_eq_true, if_false]
          rw [if_pos h]
  · intro hc hl hcont htry
    unfold download_to_blob
    rw [hc, hl]
    simp only [Bool.false_eq_true, if_false]
    rw [if_neg (by rcases hcont with h | h <;> simp [h])]
    rcases htry with hext | ⟨k, hup, hk⟩
    · rw [hext]
      exact ⟨_, rfl, by simp⟩
    · by_cases hext : env.extractRaises = true
      · rw [hext]
        exact ⟨_, rfl, by simp⟩
      · rw [Bool.not_eq_true] at hext
        rw [hext]
        simp only [Bool.false_eq_true, if_false]
        rw [hup, if_pos (uploadLoop_raises base_blob_name env.relFiles k hk)]
        exact ⟨_, rfl, by simp⟩

/-- Witness for C1 (amended): a credential failure propagates as an error,
while an extraction failure inside the `try` is absorbed into `-1` with a
logged exception. -/
theorem download_to_blob_boundary_witness :
    (∃ e, download_to_blob ⟨true, false, [], false, false, [], none⟩
        "http://u" "001.tar.gz" "https://acct" "polyp-datasets" "real-colon-dataset" =
        Except.error e) ∧
    (∃ t, download_to_blob ⟨false, false, ["polyp-datasets"], false, true, [], none⟩
        "http://u" "001.tar.gz" "https://acct" "polyp-datasets" "real-colon-dataset" =
        Except.ok (-1, t) ∧ Ev.logException ∈ t) :=
  ⟨(download_to_blob_boundary ⟨true, false, [], false, false, [], none⟩
      "http://u" "001.tar.gz" "https://acct" "polyp-datasets" "real-colon-dataset").1
      (Or.inl rfl),
   (download_to_blob_boundary ⟨false, false, ["polyp-datasets"], false, true, [], none⟩
      "http://u" "001.tar.gz" "https://acct" "polyp-datasets" "real-colon-dataset").2
      rfl rfl (Or.inr rfl) (Or.inl rfl)⟩

/-- C8: whenever the pipeline returns (count or sentinel `-1`, i.e. every
`Except.ok` outcome), its trace starts by creating the scratch directory
before the download phase, and contains the scratch-directory removal before
the return. -/
theorem pipeline_scratch_dir (env : PipelineEnv)
    (file_url file_name storage_acct_url container_name base_blob_name : String)
    (r : Int) (t : List Ev)
    (h : download_to_blob env file_url file_name storage_acct_url
        container_name base_blob_name = Except.ok (r, t)) :
    (∃ rest, t = Ev.mkTmpdir :: Ev.download file_name :: rest) ∧ Ev.rmTmpdir ∈ t := by
  unfold download_to_blob at h
  by_cases hc : env.credentialRaises = true
  · rw [if_pos hc] at h
    exact absurd h (by simp)
  rw [Bool.not_eq_true] at hc
  rw [hc] at h
  simp only [Bool.false_eq_true, if_false] at h
  by_cases hl : env.listContainersRaises = true
  · rw [if_pos hl] at h
    exact absurd h (by simp)
  rw [Bool.not_eq_true] at hl
  rw [hl] at h
  simp only [Bool.false_eq_true, if_false] at h
  by_cases hcc : container_found env container_name = false ∧ env.createContainerRaises = true
  · rw [if_pos hcc] at h
    exact absurd h (by simp)
  rw [if_neg hcc] at h
  by_cases hext : env.extractRaises = true
  · rw [if_pos hext] at h
    obtain ⟨hr, ht⟩ := by simpa using h
    subst ht
    exact ⟨⟨_, rfl⟩, by simp⟩
  rw [Bool.not_eq_true] at hext
  rw [hext] at h
  simp only [Bool.false_eq_true, if_false] at h
  by_cases hu : (uploadLoop base_blob_name env.relFiles env.uploadRaisesAt).2.2 = true
  · rw [if_pos hu] at h
    obtain ⟨hr, ht⟩ := by simpa using h
    subst ht
    exact ⟨⟨_, rfl⟩, by simp⟩
  · rw [if_neg hu] at h
    obtain ⟨hr, ht⟩ := by simpa using h
    subst ht
    exact ⟨⟨_, rfl⟩, by simp⟩

/-- Witness for C8: a concrete clean run and a concrete failing run both
create the scratch directory first and remove it before returning. -/
theorem pipeline_scratch_dir_witness :
    ((∃ rest, [Ev.mkTmpdir, Ev.download "001.tar.gz", Ev.extractArchive,
        Ev.removeArchive, Ev.uploadBlob "real-colon-dataset/001/frame_a.jpg",
        Ev.rmTmpdir] = Ev.mkTmpdir :: Ev.download "001.tar.gz" :: rest) ∧
      Ev.rmTmpdir ∈ [Ev.mkTmpdir, Ev.download "001.tar.gz", Ev.extractArchive,
        Ev.removeArchive, Ev.uploadBlob "real-colon-dataset/001/frame_a.jpg",
        Ev.rmTmpdir]) ∧
    ((∃ rest, [Ev.mkTmpdir, Ev.download "001.tar.gz", Ev.extractArchive,
        Ev.rmTmpdir, Ev.logException] = Ev.mkTmpdir :: Ev.download "001.tar.gz" :: rest) ∧
      Ev.rmTmpdir ∈ [Ev.mkTmpdir, Ev.download "001.tar.gz", Ev.extractArchive,
        Ev.rmTmpdir, Ev.logException]) :=
  ⟨pipeline_scratch_dir
      ⟨false, false, ["polyp-datasets"], false, false, ["001/frame_a.jpg"], none⟩
      "http://u" "001.tar.gz" "https://acct" "polyp-datasets" "real-colon-dataset"
      1 _ rfl,
   pipeline_scratch_dir
      ⟨false, false, ["polyp-datasets"], false, true, [], none⟩
      "http://u" "001.tar.gz" "https://acct" "polyp-datasets" "real-colon-dataset"
      (-1) _ rfl⟩

/-! ## Claims about `main` -/

/-- C2: an entry for which the Existence Checker reports a blob under its
remote listing is never queued as a download task; and the run's collected
pipeline results do not depend on what the pipeline would do on such skipped
entries (the pipeline is never run for them) — the skip decision is the pure
function `blob_exists` of the entry's name and the remote listing. -/
theorem orchestrator_skip_existing (env env' : MainEnv) :
    (∀ fi ∈ env.files, blob_exists fi.2 env.containerBlobs BASE_BLOB_NAME = true →
      fi ∉ download_tasks env) ∧
    (env'.files = env.files → env'.containerBlobs = env.containerBlobs →
      (∀ fi ∈ download_tasks env, env'.pipelineResult fi = env.pipelineResult fi) →
      pool_results env' = pool_results env) := by
  constructor
  · intro fi _ hex hmem
    rw [download_tasks, List.mem_filter] at hmem
    rw [hex] at hmem
    exact absurd hmem.2 (by simp)
  · intro hf hb hres
    have ht : download_tasks env' = download_tasks env := by
      unfold download_tasks
      rw [hf, hb]
    unfold pool_results num_processes
    rw [ht, List.map_congr_left hres]

/-- Witness for C2: entry `a.tar.gz` has blobs under its listing and is not
queued, and changing the pipeline's hypothetical result on it does not change
the run's collected results. -/
theorem orchestrator_skip_existing_witness :
    blob_exists "a.tar.gz" ["real-colon-dataset/a/frame_0001.jpg"] BASE_BLOB_NAME = true ∧
    ("http://u/a", "a.tar.gz") ∉ download_tasks
      ⟨[("http://u/a", "a.tar.gz"), ("http://u/b", "b.tar.gz")],
        ["real-colon-dataset/a/frame_0001.jpg"], fun _ => 5⟩ ∧
    pool_results
      ⟨[("http://u/a", "a.tar.gz"), ("http://u/b", "b.tar.gz")],
        ["real-colon-dataset/a/frame_0001.jpg"],
        fun fi => if fi.2 = "a.tar.gz" then -1 else 5⟩ =
    pool_results
      ⟨[("http://u/a", "a.tar.gz"), ("http://u/b", "b.tar.gz")],
        ["real-colon-dataset/a/frame_0001.jpg"], fun _ => 5⟩ := by
  refine ⟨by decide, ?_, ?_⟩
  · exact (orchestrator_skip_existing
      ⟨[("http://u/a", "a.tar.gz"), ("http://u/b", "b.tar.gz")],
        ["real-colon-dataset/a/frame_0001.jpg"], fun _ => 5⟩
      ⟨[("http://u/a", "a.tar.gz"), ("http://u/b", "b.tar.gz")],
        ["real-colon-dataset/a/frame_0001.jpg"], fun _ => 5⟩).1
      ("http://u/a", "a.tar.gz") (by simp) (by decide)
  · exact (orchestrator_skip_existing
      ⟨[("http://u/a", "a.tar.gz"), ("http://u/b", "b.tar.gz")],
        ["real-colon-dataset/a/frame_0001.jpg"], fun _ => 5⟩
      ⟨[("http://u/a", "a.tar.gz"), ("http://u/b", "b.tar.gz")],
        ["real-colon-dataset/a/frame_0001.jpg"],
        fun fi => if fi.2 = "a.tar.gz" then -1 else 5⟩).2
      rfl rfl (by decide)

/-- C4 is a code bug: when every catalog entry is skipped there are zero
pending tasks, the pool branch (`if num_processes != 0:`) does not run, and
the local variable `results` is never assigned; the summary loop at
`zip(fnames, results)` then raises `UnboundLocalError` instead of emitting
zero summary lines and completing.  This theorem evaluates the model at a
one-entry catalog whose entry is already uploaded. -/
theorem main_zero_tasks_unbound_results :
    download_tasks ⟨[("http://u/a", "a.tar.gz")],
        ["real-colon-dataset/a/frame_0001.jpg"], fun _ => 0⟩ = [] ∧
    num_processes ⟨[("http://u/a", "a.tar.gz")],
        ["real-colon-dataset/a/frame_0001.jpg"], fun _ => 0⟩ = 0 ∧
    main_summary ⟨[("http://u/a", "a.tar.gz")],
        ["real-colon-dataset/a/frame_0001.jpg"], fun _ => 0⟩ =
      Except.error "UnboundLocalError: results" :=
  ⟨rfl, rfl, rfl⟩

end FigshareDataset
